import Mathlib

/-!
Shallow embedding of `src/scraper/cgesp_scraper.py` (CGESP weather scraper).

Strings are modelled by Lean `String` / `List Char`; Python `float` values
produced by parsing decimal digit strings are modelled exactly by `ℚ`.
Python regular-expression searches used by the scraper are small fixed
patterns (a literal label, optional whitespace, a run of `[\d.]`, optional
whitespace, a literal unit); for these patterns the leftmost-greedy Python
semantics is deterministic, and the matchers below implement exactly that:
at each start position (scanned left to right) the pattern either matches
with maximal greedy runs or fails, because no unit literal begins with a
character of the class `[\d.]` or a whitespace character.
Case-insensitive matching is modelled with ASCII `Char.toLower`, which
agrees with Python on every pattern and input used here.
-/

namespace CGESP

/-- Python `\s` (ASCII range), as used by `re.sub(r'\s+', ' ', ...)` and `str.strip()`. -/
def isPySpace (c : Char) : Bool :=
  c == ' ' || c == '\t' || c == '\n' || c == '\r' || c == '\x0b' || c == '\x0c'

/-- Characters of the regex class `[\d.]` (ASCII digits and the decimal point). -/
def numChar (c : Char) : Bool := c.isDigit || c == '.'

/-- Characters kept by `re.sub(r'[^\d.-]', '', text)` in `_extract_value`. -/
def keptChar (c : Char) : Bool := c.isDigit || c == '.' || c == '-'

/-- Match a literal pattern at the head of `s` (case-insensitively when `ci`),
returning the remaining input on success. -/
def matchLit (ci : Bool) : List Char → List Char → Option (List Char)
  | [], s => some s
  | _ :: _, [] => none
  | p :: ps, c :: cs =>
    if (if ci then p.toLower == c.toLower else p == c) then matchLit ci ps cs else none

/-- Search of a plain literal, as `re.search`: does `lit` occur in `s` (case-insensitively when `ci`)? -/
def hasLit (ci : Bool) (lit : String) (s : String) : Bool :=
  s.data.tails.any fun t => (matchLit ci lit.data t).isSome

/-- Matches `.*` (no DOTALL) followed by a literal: some newline-free prefix of the
input is skipped and then `lit` matches. -/
def dotStarThen (ci : Bool) (lit : List Char) : List Char → Bool
  | [] => (matchLit ci lit []).isSome
  | c :: t => (matchLit ci lit (c :: t)).isSome || (c != '\n' && dotStarThen ci lit t)

/-- Predicate for `re.search("Chuva.*Por Período", re.IGNORECASE)` applied to a text node. -/
def rainSectionPat (s : String) : Bool :=
  s.data.tails.any fun t =>
    match matchLit true "Chuva".data t with
    | none => false
    | some r => dotStarThen true "Por Período".data r

/-- Value of a list of decimal digits. -/
def natOfDigits (l : List Char) : ℕ :=
  l.foldl (fun a c => 10 * a + (c.toNat - '0'.toNat)) 0

/-- Python `float(s)` restricted to strings over the alphabet `[\d.-]`
(the only strings `_extract_value` ever passes to `float`):
an optional leading minus, then digits with at most one decimal point and
at least one digit.  `none` models a raised `ValueError` (or the empty
string, which `_extract_value` short-circuits to `0.0`). -/
def pyFloatMag? (sgn : ℤ) (t : List Char) : Option ℚ :=
  match t.dropWhile Char.isDigit with
  | [] =>
    if (t.takeWhile Char.isDigit).isEmpty then none
    else some (mkRat (sgn * (natOfDigits (t.takeWhile Char.isDigit) : ℤ)) 1)
  | c :: fp =>
    if c == '.' && fp.all Char.isDigit
        && !((t.takeWhile Char.isDigit).isEmpty && fp.isEmpty)
    then some (mkRat (sgn * ((natOfDigits (t.takeWhile Char.isDigit) * 10 ^ fp.length
                                + natOfDigits fp : ℕ) : ℤ))
                     (10 ^ fp.length))
    else none

def pyFloat? : List Char → Option ℚ
  | '-' :: r => pyFloatMag? (-1) r
  | s => pyFloatMag? 1 s

/-- Embeds `CGESPScraper._extract_value`: strip every character outside `[\d.-]`,
then `float(...)`, with `0.0` for the empty remainder or a parse failure. -/
def extract_value (s : String) : ℚ :=
  (pyFloat? (s.data.filter keptChar)).getD 0

/-- Python `str.replace(src, dst)` for single characters. -/
def replaceChar (src dst : Char) (l : List Char) : List Char :=
  l.map fun c => if c == src then dst else c

/-- The six chained `str.replace` calls of `_clean_text`, in source order;
every source character in the file is the literal U+FFFD replacement character. -/
def mojibakeFix (l : List Char) : List Char :=
  replaceChar '�' 'â' (replaceChar '�' 'ê' (replaceChar '�' 'ó'
    (replaceChar '�' 'ã' (replaceChar '�' 'á' (replaceChar '�' 'í' l)))))

/-- One step of collapsing whitespace runs; the flag records whether the
previous character was part of a whitespace run. -/
def collapseStep (acc : List Char × Bool) (c : Char) : List Char × Bool :=
  if isPySpace c then (if acc.2 then acc else (' ' :: acc.1, true))
  else (c :: acc.1, false)

/-- Embeds `re.sub(r'\s+', ' ', text)`: replace every maximal whitespace run by one space. -/
def collapseWs (l : List Char) : List Char :=
  (l.foldl collapseStep ([], false)).1.reverse

/-- Python `str.strip()`. -/
def pyStrip (s : String) : String :=
  String.mk (((s.data.dropWhile isPySpace).reverse.dropWhile isPySpace).reverse)

/-- Embeds `CGESPScraper._clean_text`. -/
def clean_text (s : String) : String :=
  if s == "" then ""
  else pyStrip (String.mk (collapseWs (mojibakeFix s.data)))

/-! ## Data model of the rendered document

A rendered page is modelled by the parts of the BeautifulSoup tree the
scraper actually consults: the `title` text, the `h1`/`h2`/`h3` heading
texts in document order, the text nodes (each with the flattened
`get_text()` of its `find_parent()`, `none` when there is no parent), and
the tables (each as its `th` texts plus the cell texts of every `tr` after
the first, restricted to `td` cells). -/

structure TextNode where
  text : String
  parentText : Option String
deriving DecidableEq

structure HTable where
  headers : List String
  dataRows : List (List String)
deriving DecidableEq

structure Doc where
  title : Option String := none
  headings : List String := []
  textNodes : List TextNode := []
  tables : List HTable := []
deriving DecidableEq

def emptyDoc : Doc := {}

/-! ## Measurement sub-records

A Python dict built by a section extractor is modelled as
`Option <record>`: `none` is the empty dict `{}`, `some r` a dict with all
of the section's fields present. -/

structure RainRec where
  current : ℚ
  previous : ℚ
  reset_time : String
deriving DecidableEq

structure MinMaxRec where
  current : ℚ
  max : ℚ
  min : ℚ
deriving DecidableEq

structure WindRec where
  speed : ℚ
  gust : ℚ
deriving DecidableEq

structure HistoryEntry where
  date : String
  rain : ℚ
  wind_speed : ℚ
  wind_direction : ℚ
  temperature : ℚ
  humidity : ℚ
  pressure : ℚ
deriving DecidableEq

/-! ## Per-section regex patterns

Each extraction regex has the shape
`<label>\s*([\d.]+)\s*<unit>` (for temperature the unit is `°?C`), searched
with `re.search`, case-insensitively except for the two rain patterns. -/

structure NumPat where
  ci : Bool
  label : String
  degOpt : Bool
  unit : String

/-- Attempt the pattern at one start position, returning the captured
`[\d.]+` group.  Greedy runs are maximal; as argued in the header comment
this is exactly Python's leftmost-greedy semantics for these patterns. -/
def tryNumAt (p : NumPat) (s : List Char) : Option (List Char) :=
  match matchLit p.ci p.label.data s with
  | none => none
  | some r1 =>
    let r2 := r1.dropWhile isPySpace
    let num := r2.takeWhile numChar
    if num.isEmpty then none else
    let r3 := (r2.dropWhile numChar).dropWhile isPySpace
    let r4 := if p.degOpt then (match r3 with | '°' :: t => t | _ => r3) else r3
    match matchLit p.ci p.unit.data r4 with
    | none => none
    | some _ => some num

/-- Search, as `re.search`, of a labelled-number pattern over the whole text. -/
def searchNum (p : NumPat) (s : String) : Option String :=
  (s.data.tails.findSome? (tryNumAt p)).map String.mk

/-- Attempt `Zeramento:\s*(\d{2}:\d{2}:\d{2})` at one start position. -/
def tryResetAt (s : List Char) : Option (List Char) :=
  match matchLit false "Zeramento:".data s with
  | none => none
  | some r1 =>
    match r1.dropWhile isPySpace with
    | a :: b :: ':' :: c :: d :: ':' :: e :: f :: _ =>
      if a.isDigit && b.isDigit && c.isDigit && d.isDigit && e.isDigit && f.isDigit
      then some [a, b, ':', c, d, ':', e, f] else none
    | _ => none

/-- Embeds `re.search` of the reset-time pattern `Zeramento:` followed by `HH:MM:SS`. -/
def searchReset (s : String) : Option String :=
  (s.data.tails.findSome? tryResetAt).map String.mk

def rainCurrentPat : NumPat := ⟨false, "Per. Atual:", false, "mm"⟩
def rainPreviousPat : NumPat := ⟨false, "Per. Anterior:", false, "mm"⟩
def tempCurrentPat : NumPat := ⟨true, "Atual:", true, "C"⟩
def tempMaxPat : NumPat := ⟨true, "Máxima:", true, "C"⟩
def tempMinPat : NumPat := ⟨true, "Mínima:", true, "C"⟩
def humCurrentPat : NumPat := ⟨true, "Atual:", false, "%"⟩
def humMaxPat : NumPat := ⟨true, "Máxima:", false, "%"⟩
def humMinPat : NumPat := ⟨true, "Mínima:", false, "%"⟩
def windSpeedPat : NumPat := ⟨true, "Velocidade:", false, "km/h"⟩
def windGustPat : NumPat := ⟨true, "Rajada:", false, "km/h"⟩
def pressCurrentPat : NumPat := ⟨true, "Atual:", false, "hPa"⟩
def pressMaxPat : NumPat := ⟨true, "Máxima:", false, "hPa"⟩
def pressMinPat : NumPat := ⟨true, "Mínima:", false, "hPa"⟩

/-- Embeds `self._extract_value(m.group(1)) if m else 0.0`. -/
def valOf (o : Option String) : ℚ :=
  match o with
  | some g => extract_value g
  | none => 0

/-- Embeds `CGESPScraper._extract_rain_data`.  The section node is the first text
node matching `Chuva.*Por Período` (IGNORECASE), falling back to the first
node matching `Precipitação` (IGNORECASE); absent both, the Python code
returns the dict `{}` unchanged, modelled by `none`. -/
def extract_rain_data (doc : Doc) : Option RainRec :=
  let sec :=
    match doc.textNodes.find? (fun n => rainSectionPat n.text) with
    | some n => some n
    | none => doc.textNodes.find? (fun n => hasLit true "Precipitação" n.text)
  match sec with
  | none => none
  | some n =>
    let t := n.parentText.getD ""
    some { current := valOf (searchNum rainCurrentPat t),
           previous := valOf (searchNum rainPreviousPat t),
           reset_time := (searchReset t).getD "00:00:00" }

/-- Embeds `CGESPScraper._extract_temperature_data`. -/
def extract_temperature_data (doc : Doc) : Option MinMaxRec :=
  match doc.textNodes.find? (fun n => hasLit true "Temperatura" n.text) with
  | none => none
  | some n =>
    let t := n.parentText.getD ""
    some { current := valOf (searchNum tempCurrentPat t),
           max := valOf (searchNum tempMaxPat t),
           min := valOf (searchNum tempMinPat t) }

/-- Embeds `CGESPScraper._extract_humidity_data`. -/
def extract_humidity_data (doc : Doc) : Option MinMaxRec :=
  match doc.textNodes.find? (fun n => hasLit true "Umidade" n.text) with
  | none => none
  | some n =>
    let t := n.parentText.getD ""
    some { current := valOf (searchNum humCurrentPat t),
           max := valOf (searchNum humMaxPat t),
           min := valOf (searchNum humMinPat t) }

/-- Embeds `CGESPScraper._extract_wind_data`. -/
def extract_wind_data (doc : Doc) : Option WindRec :=
  match doc.textNodes.find? (fun n => hasLit true "Vento" n.text) with
  | none => none
  | some n =>
    let t := n.parentText.getD ""
    some { speed := valOf (searchNum windSpeedPat t),
           gust := valOf (searchNum windGustPat t) }

/-- Embeds `CGESPScraper._extract_pressure_data`. -/
def extract_pressure_data (doc : Doc) : Option MinMaxRec :=
  match doc.textNodes.find? (fun n => hasLit true "Pressão" n.text) with
  | none => none
  | some n =>
    let t := n.parentText.getD ""
    some { current := valOf (searchNum pressCurrentPat t),
           max := valOf (searchNum pressMaxPat t),
           min := valOf (searchNum pressMinPat t) }

/-! ## Station name resolution -/

/-- The module-level `KNOWN_STATIONS` dict (eleven stations). -/
def KNOWN_STATIONS : List (String × String) :=
  [("1000840", "Ipiranga - Ribeirão dos Meninos"),
   ("1000839", "Cidade Universitária"),
   ("1000838", "Morumbi - USP"),
   ("1000837", "Vila Maria"),
   ("1000836", "Santana"),
   ("1000835", "Sé - Centro"),
   ("1000834", "Vila Prudente"),
   ("1000833", "Itaim Paulista"),
   ("1000832", "Jardim São Luís"),
   ("1000831", "Capela do Socorro"),
   ("1000830", "Parelheiros")]

/-- Embeds `KNOWN_STATIONS.get(station_code)`. -/
def stationLookup (code : String) : Option String :=
  (KNOWN_STATIONS.find? fun kv => kv.1 == code).map fun kv => kv.2

/-- The lazy group of `re.search(r'Estacao Meteorologica - (.*?) -', title)`
from one start position: the shortest newline-free span followed by
the literal " -" (lazy quantifiers try the shortest expansion first). -/
def lazyUntilDash : List Char → List Char → Option (List Char)
  | [], _ => none
  | c :: t, acc =>
    if (matchLit false [' ', '-'] (c :: t)).isSome then some acc.reverse
    else if c == '\n' then none
    else lazyUntilDash t (c :: acc)

/-- Embeds `re.search(r'Estacao Meteorologica - (.*?) -', s)`, returning group 1. -/
def titleGroup (s : String) : Option String :=
  (s.data.tails.findSome? fun t =>
    match matchLit false "Estacao Meteorologica - ".data t with
    | none => none
    | some r => lazyUntilDash r []).map String.mk

/-- Embeds `if title and title.text:` followed by the title regex: the name the
title-based branch of `_extract_station_name` would return, if any. -/
def titleResult (doc : Doc) : Option String :=
  match doc.title with
  | some t => if t != "" then (titleGroup t).map pyStrip else none
  | none => none

/-- Embeds `'estacao' in header.text.lower() or 'meteorologica' in header.text.lower()`. -/
def headingKeyword (h : String) : Bool :=
  hasLit true "estacao" h || hasLit true "meteorologica" h

/-- Embeds `CGESPScraper._extract_station_name`. -/
def extract_station_name (doc : Doc) (station_code : String) : String :=
  match titleResult doc with
  | some nm => nm
  | none =>
    match doc.headings.find? headingKeyword with
    | some h => pyStrip h
    | none => (stationLookup station_code).getD ("Estacao_" ++ station_code)

/-! ## History table extraction -/

/-- The header test of `_extract_history_data`: at least 7 `th` cells, and
the cleaned header texts contain a "Data"-labelled and a "Chuva"-labelled
column (case-sensitive substring test). -/
def historyQualifies (t : HTable) : Bool :=
  7 ≤ t.headers.length
    && (t.headers.map clean_text).any (fun h => hasLit false "Data" h)
    && (t.headers.map clean_text).any (fun h => hasLit false "Chuva" h)

/-- One `HistoryEntry` from a data row with at least 7 cells, columns taken
positionally. -/
def mkHistoryEntry (r : List String) : HistoryEntry :=
  { date := clean_text (r.getD 0 ""),
    rain := extract_value (r.getD 1 ""),
    wind_speed := extract_value (r.getD 2 ""),
    wind_direction := extract_value (r.getD 3 ""),
    temperature := extract_value (r.getD 4 ""),
    humidity := extract_value (r.getD 5 ""),
    pressure := extract_value (r.getD 6 "") }

/-- Embeds `CGESPScraper._extract_history_data`: the first table passing
`historyQualifies` contributes one entry per data row with ≥ 7 cells
(rows with fewer cells are skipped); no qualifying table gives `[]`. -/
def extract_history_data (doc : Doc) : List HistoryEntry :=
  match doc.tables.find? historyQualifies with
  | none => []
  | some t =>
    t.dataRows.filterMap fun r =>
      if 7 ≤ r.length then some (mkHistoryEntry r) else none

/-! ## Fetch / scrape lifecycle

`scrape_data` is `try: driver = setup_driver(); driver.get(...); wait;
parse; build dict / except: return {} / finally: if driver: driver.quit()`.
The exogenous failure points are whether `setup_driver()` itself raises
(`acquireOk`), whether loading/waiting raises, e.g. a timeout (`loadOk`),
and whether anything else in the body raises afterwards (`bodyOk`); the
parsed page is the environment's `page`.  The result pairs the returned
value (`none` models the empty dict `{}`) with whether `driver.quit()` was
called. -/

structure ScrapeEnv where
  acquireOk : Bool
  loadOk : Bool
  bodyOk : Bool
  page : Doc
deriving DecidableEq

/-- One `StationReading` as assembled in `scrape_data` (the wall-clock
`timestamp` field is an external clock reading and is not modelled). -/
structure Reading where
  station_code : String
  station_name : String
  rain : Option RainRec
  temperature : Option MinMaxRec
  humidity : Option MinMaxRec
  wind : Option WindRec
  pressure : Option MinMaxRec
  history : List HistoryEntry
deriving DecidableEq

def extractReading (doc : Doc) (code : String) : Reading :=
  { station_code := code,
    station_name := extract_station_name doc code,
    rain := extract_rain_data doc,
    temperature := extract_temperature_data doc,
    humidity := extract_humidity_data doc,
    wind := extract_wind_data doc,
    pressure := extract_pressure_data doc,
    history := extract_history_data doc }

/-- Embeds `CGESPScraper.scrape_data`. -/
def scrape_data (env : ScrapeEnv) (station_code : String) : Option Reading × Bool :=
  match env.acquireOk, env.loadOk, env.bodyOk with
  | false, _, _ => (none, false)
  | true, false, _ => (none, true)
  | true, true, false => (none, true)
  | true, true, true => (some (extractReading env.page station_code), true)

/-! ## Publisher -/

/-- Outcome of one outbound `requests.post`: the call raised (connection
error, timeout, ...) or returned a response with the given status code. -/
inductive HttpOutcome where
  | raised : HttpOutcome
  | status : Nat → HttpOutcome
deriving DecidableEq

/-- Models that `requests.Response.raise_for_status()` raises exactly for 4xx/5xx codes. -/
def raiseForStatusRaises (c : Nat) : Bool := 400 ≤ c && c < 600

def is2xx (c : Nat) : Bool := 200 ≤ c && c < 300

/-- Embeds `HomeAssistantIntegration.send_sensor_data`: posts, calls
`raise_for_status`, returns `True`; any exception is caught and `False`
returned. -/
def send_sensor_data (o : HttpOutcome) : Bool :=
  match o with
  | .raised => false
  | .status c => !raiseForStatusRaises c

/-- The HTTP outcomes of the six per-cycle publish calls of `main`, in
source order. -/
structure Outcomes where
  temperature : HttpOutcome
  humidity : HttpOutcome
  rain : HttpOutcome
  wind_speed : HttpOutcome
  pressure : HttpOutcome
  complete : HttpOutcome
deriving DecidableEq

/-- The publish phase of one `main` loop iteration: six unconditional
sequential `send_sensor_data` calls, one per channel. -/
def publishAll (os : Outcomes) : List Bool :=
  [send_sensor_data os.temperature, send_sensor_data os.humidity,
   send_sensor_data os.rain, send_sensor_data os.wind_speed,
   send_sensor_data os.pressure, send_sensor_data os.complete]

/-- Embeds `if data:` — publishes are attempted only when `scrape_data` returned a
non-empty reading. -/
def cyclePublishes (env : ScrapeEnv) (code : String) (os : Outcomes) : List Bool :=
  match (scrape_data env code).1 with
  | none => []
  | some _ => publishAll os

/-- Embeds `sleep_time = max(0, args.scan_interval - elapsed_time)`. -/
def sleep_time (scan_interval elapsed : ℚ) : ℚ :=
  max 0 (scan_interval - elapsed)

/-- One full loop iteration of `main`: the publish results and the computed
inter-cycle wait. -/
def cycle (env : ScrapeEnv) (code : String) (os : Outcomes) (scan_interval elapsed : ℚ) :
    List Bool × ℚ :=
  (cyclePublishes env code os, sleep_time scan_interval elapsed)

/-! ## Helper lemmas -/

lemma pyFloatMag?_eq_none_of_no_digit (sgn : ℤ) (t : List Char)
    (h : ∀ c ∈ t, c.isDigit = false) : pyFloatMag? sgn t = none := by
  cases t with
  | nil => rfl
  | cons a t' =>
    have ha : a.isDigit = false := h a (List.mem_cons_self a t')
    have hip : (a :: t').takeWhile Char.isDigit = [] := by
      simp [List.takeWhile_cons, ha]
    have hrest : (a :: t').dropWhile Char.isDigit = a :: t' := by
      simp [List.dropWhile_cons, ha]
    unfold pyFloatMag?
    rw [hrest]
    by_cases hdot : a = '.'
    · subst hdot
      cases t' with
      | nil => simp [hip]
      | cons b t'' =>
        have hb : b.isDigit = false := h b (by simp)
        simp [hb]
    · simp [hdot]

lemma pyFloat?_eq_none_of_no_digit (s : List Char)
    (h : ∀ c ∈ s, c.isDigit = false) : pyFloat? s = none := by
  unfold pyFloat?
  split
  · next r =>
    exact pyFloatMag?_eq_none_of_no_digit _ _ fun c hc => h c (by simp [hc])
  · exact pyFloatMag?_eq_none_of_no_digit _ _ h

lemma all_kept_of_pyFloatMag? (sgn : ℤ) (t : List Char) (v : ℚ)
    (h : pyFloatMag? sgn t = some v) : t.all keptChar = true := by
  have hsplit : t.takeWhile Char.isDigit ++ t.dropWhile Char.isDigit = t :=
    List.takeWhile_append_dropWhile Char.isDigit t
  have hip : ∀ c ∈ t.takeWhile Char.isDigit, keptChar c = true := by
    intro c hc
    have := List.mem_takeWhile_imp hc
    simp [keptChar, this]
  unfold pyFloatMag? at h
  rcases hd : t.dropWhile Char.isDigit with _ | ⟨d, fp⟩
  · rw [List.all_eq_true]
    intro c hc
    rw [← hsplit, hd, List.append_nil] at hc
    exact hip c hc
  · simp only [hd] at h
    split_ifs at h with hcond
    · simp only [Bool.and_eq_true] at hcond
      obtain ⟨⟨h1, h2⟩, -⟩ := hcond
      have hdot : d = '.' := by simpa using h1
      have hfp : ∀ x ∈ fp, x.isDigit = true := by
        simpa [List.all_eq_true] using h2
      rw [List.all_eq_true]
      intro c hc
      rw [← hsplit, hd, List.mem_append] at hc
      rcases hc with hc | hc
      · exact hip c hc
      · rcases List.mem_cons.mp hc with rfl | hmem
        · simp [keptChar, hdot]
        · simp [keptChar, hfp c hmem]

lemma all_kept_of_pyFloat? (s : List Char) (v : ℚ)
    (h : pyFloat? s = some v) : s.all keptChar = true := by
  unfold pyFloat? at h
  revert h
  split
  · next r =>
    intro h
    have := all_kept_of_pyFloatMag? _ _ _ h
    simpa [keptChar] using this
  · exact fun h => all_kept_of_pyFloatMag? _ _ _ h

/-! ## Claim theorems -/

/-- Claim C4: `_extract_value` strips every character outside digits, the
decimal point and the minus sign, so for any single numeric token surrounded
by stray non-numeric characters (currency symbols, units, whitespace — i.e.
characters the cleaning regex removes) it returns exactly the token's parsed
value; an input containing no digit at all yields `0.0`; and the function is
total, so a parse failure yields `0.0` instead of an exception. -/
theorem extract_value_correct :
    (∀ (p tok q : String) (v : ℚ),
        (∀ c ∈ p.data, keptChar c = false) →
        (∀ c ∈ q.data, keptChar c = false) →
        pyFloat? tok.data = some v →
        extract_value (p ++ tok ++ q) = v)
    ∧ (∀ s : String, (∀ c ∈ s.data, c.isDigit = false) → extract_value s = 0) := by
  constructor
  · intro p tok q v hp hq htok
    have hkept : ∀ c ∈ tok.data, keptChar c = true :=
      List.all_eq_true.mp (all_kept_of_pyFloat? _ _ htok)
    have h1 : (p ++ tok ++ q).data.filter keptChar = tok.data := by
      rw [String.data_append, String.data_append, List.filter_append, List.filter_append]
      rw [List.filter_eq_nil_iff.mpr fun c hc => by simp [hp c hc],
          List.filter_eq_self.mpr hkept,
          List.filter_eq_nil_iff.mpr fun c hc => by simp [hq c hc]]
      simp
    unfold extract_value
    rw [h1, htok]
    rfl
  · intro s hs
    unfold extract_value
    rw [pyFloat?_eq_none_of_no_digit _ fun c hc => hs c (List.mem_of_mem_filter hc)]
    rfl

/-- Witness for C4 at concrete inputs: a currency-and-unit wrapped token and
a digit-free cell. -/
theorem extract_value_correct_witness :
    extract_value ("R$ " ++ "23.4" ++ " mm") = mkRat 234 10 ∧ extract_value "N/A" = 0 :=
  ⟨extract_value_correct.1 "R$ " "23.4" " mm" (mkRat 234 10)
      (by decide) (by decide) (by decide),
   extract_value_correct.2 "N/A" (by decide)⟩

/-- A document containing a single text node without any section keyword. -/
def plainDoc : Doc :=
  { textNodes := [⟨"Hello world", some "Hello world"⟩] }

/-- Claim C1 counterexample: on a rendered document with no section keyword
at all, every section extractor returns the EMPTY dict (modelled `none`),
not the all-default sub-record with every field present that the claim
asserts. -/
theorem sections_keyword_absent_counterexample :
    extract_rain_data emptyDoc = none
    ∧ extract_temperature_data emptyDoc = none
    ∧ extract_humidity_data emptyDoc = none
    ∧ extract_wind_data emptyDoc = none
    ∧ extract_pressure_data emptyDoc = none
    ∧ (none : Option RainRec) ≠ some ⟨0, 0, "00:00:00"⟩
    ∧ (none : Option MinMaxRec) ≠ some ⟨0, 0, 0⟩
    ∧ (none : Option WindRec) ≠ some ⟨0, 0⟩ := by
  decide

/-- Claim C1 (amended): when a section's label keyword is absent (no text
node matches the section's search patterns), the section extractor does not
raise and returns the unmodified empty dict `{}` — with every field absent;
the all-default sub-record (0.0 / "00:00:00") arises only on the exception
path of each extractor. -/
theorem sections_keyword_absent_empty (doc : Doc) :
    ((∀ n ∈ doc.textNodes,
        rainSectionPat n.text = false ∧ hasLit true "Precipitação" n.text = false) →
      extract_rain_data doc = none)
    ∧ ((∀ n ∈ doc.textNodes, hasLit true "Temperatura" n.text = false) →
      extract_temperature_data doc = none)
    ∧ ((∀ n ∈ doc.textNodes, hasLit true "Umidade" n.text = false) →
      extract_humidity_data doc = none)
    ∧ ((∀ n ∈ doc.textNodes, hasLit true "Vento" n.text = false) →
      extract_wind_data doc = none)
    ∧ ((∀ n ∈ doc.textNodes, hasLit true "Pressão" n.text = false) →
      extract_pressure_data doc = none) := by
  refine ⟨?_, ?_, ?_, ?_, ?_⟩
  · intro h
    unfold extract_rain_data
    rw [List.find?_eq_none.mpr fun n hn => by simp [(h n hn).1],
        List.find?_eq_none.mpr fun n hn => by simp [(h n hn).2]]
  · intro h
    unfold extract_temperature_data
    rw [List.find?_eq_none.mpr fun n hn => by simp [h n hn]]
  · intro h
    unfold extract_humidity_data
    rw [List.find?_eq_none.mpr fun n hn => by simp [h n hn]]
  · intro h
    unfold extract_wind_data
    rw [List.find?_eq_none.mpr fun n hn => by simp [h n hn]]
  · intro h
    unfold extract_pressure_data
    rw [List.find?_eq_none.mpr fun n hn => by simp [h n hn]]

/-- Witness for the amended C1 on a concrete document whose only text node
carries none of the five section keywords. -/
theorem sections_keyword_absent_empty_witness :
    extract_rain_data plainDoc = none ∧ extract_temperature_data plainDoc = none
    ∧ extract_humidity_data plainDoc = none ∧ extract_wind_data plainDoc = none
    ∧ extract_pressure_data plainDoc = none :=
  ⟨(sections_keyword_absent_empty plainDoc).1 (by decide),
   (sections_keyword_absent_empty plainDoc).2.1 (by decide),
   (sections_keyword_absent_empty plainDoc).2.2.1 (by decide),
   (sections_keyword_absent_empty plainDoc).2.2.2.1 (by decide),
   (sections_keyword_absent_empty plainDoc).2.2.2.2 (by decide)⟩

/-- Claim C2 counterexample: for the unknown code "9999999" with no matching
title or heading, the synthesized placeholder is "Estacao_9999999", not the
"Station_9999999" the claim asserts. -/
theorem station_name_placeholder_counterexample :
    extract_station_name emptyDoc "9999999" = "Estacao_9999999"
    ∧ extract_station_name emptyDoc "9999999" ≠ "Station_9999999" := by
  decide

/-- Claim C2 (amended): station-name resolution tries, in order, (a) the
title regex `Estacao Meteorologica - (.*?) -`, (b) the first h1/h2/h3
heading containing "estacao" or "meteorologica" case-insensitively, (c) the
static eleven-entry `KNOWN_STATIONS` lookup, (d) the synthesized placeholder
`Estacao_<code>`; the first method that yields a match wins, and for the
unknown code "9999999" with no matching title or heading the result is
"Estacao_9999999". -/
theorem station_name_resolution :
    (∀ (doc : Doc) (code nm : String),
        titleResult doc = some nm → extract_station_name doc code = nm)
    ∧ (∀ (doc : Doc) (code h : String),
        titleResult doc = none → doc.headings.find? headingKeyword = some h →
        extract_station_name doc code = pyStrip h)
    ∧ (∀ (doc : Doc) (code nm : String),
        titleResult doc = none → doc.headings.find? headingKeyword = none →
        stationLookup code = some nm → extract_station_name doc code = nm)
    ∧ (∀ (doc : Doc) (code : String),
        titleResult doc = none → doc.headings.find? headingKeyword = none →
        stationLookup code = none → extract_station_name doc code = "Estacao_" ++ code)
    ∧ extract_station_name emptyDoc "9999999" = "Estacao_9999999" := by
  refine ⟨?_, ?_, ?_, ?_, by decide⟩
  · intro doc code nm h1
    unfold extract_station_name
    rw [h1]
  · intro doc code h h1 h2
    unfold extract_station_name
    rw [h1, h2]
  · intro doc code nm h1 h2 h3
    unfold extract_station_name
    rw [h1, h2, h3]
    rfl
  · intro doc code h1 h2 h3
    unfold extract_station_name
    rw [h1, h2, h3]
    rfl

/-- A document whose second heading carries the keyword. -/
def headingDoc : Doc := { headings := ["foo", " Estacao Santana "] }

/-- Witness for the amended C2: heading branch and known-station branch at
concrete inputs. -/
theorem station_name_resolution_witness :
    extract_station_name headingDoc "9999999" = "Estacao Santana"
    ∧ extract_station_name emptyDoc "1000836" = "Santana" :=
  ⟨(station_name_resolution.2.1 headingDoc "9999999" " Estacao Santana "
      (by decide) (by decide)).trans (by decide),
   station_name_resolution.2.2.1 emptyDoc "1000836" "Santana" (by decide) (by decide)
     (by decide)⟩

lemma filterMap_ite_eq_filter_map {α β : Type} (p : α → Prop) [DecidablePred p]
    (f : α → β) (l : List α) :
    (l.filterMap fun a => if p a then some (f a) else none)
      = (l.filter fun a => decide (p a)).map f := by
  induction l with
  | nil => rfl
  | cons a t ih =>
    by_cases h : p a <;>
      simp [List.filterMap_cons, List.filter_cons, h, ih]

/-- Claim C3: `_extract_history_data` takes the first table whose header has
at least 7 cells and contains both a "Data"- and a "Chuva"-labelled column
(case-sensitive substrings); from it, the rows with at least 7 cells are
converted positionally into `HistoryEntry` records in original order — rows
with fewer cells are dropped without shifting later rows — so a qualifying
table whose N data rows all have ≥ 7 cells yields exactly N entries; with no
qualifying table the history is empty. -/
theorem history_extraction (doc : Doc) :
    (∀ t, doc.tables.find? historyQualifies = some t →
        extract_history_data doc
            = (t.dataRows.filter fun r => decide (7 ≤ r.length)).map mkHistoryEntry
        ∧ ((∀ r ∈ t.dataRows, 7 ≤ r.length) →
            (extract_history_data doc).length = t.dataRows.length))
    ∧ (doc.tables.find? historyQualifies = none → extract_history_data doc = []) := by
  constructor
  · intro t ht
    have heq : extract_history_data doc
        = (t.dataRows.filter fun r => decide (7 ≤ r.length)).map mkHistoryEntry := by
      unfold extract_history_data
      rw [ht]
      exact filterMap_ite_eq_filter_map _ _ _
    refine ⟨heq, fun hall => ?_⟩
    rw [heq, List.length_map,
        List.filter_eq_self.mpr fun r hr => decide_eq_true (hall r hr)]
  · intro h
    unfold extract_history_data
    rw [h]

/-- The qualifying history table of the witness document: three data rows,
the middle one with fewer than 7 cells. -/
def histTable : HTable :=
  { headers := ["Data", "Chuva", "Vel.", "Dir.", "Temp", "Umidade", "Pressão"],
    dataRows := [["01/01", "1.2", "3", "4", "5", "6", "7"], ["x", "y"],
                 ["02/01", "0", "1", "2", "3", "4", "5", "extra"]] }

/-- Witness document: a non-qualifying table followed by `histTable`. -/
def histDoc : Doc := { tables := [⟨["a"], [["z"]]⟩, histTable] }

/-- A qualifying table all of whose rows have ≥ 7 cells, and its document. -/
def histTableFull : HTable :=
  { headers := ["Data", "Chuva", "Vel.", "Dir.", "Temp", "Umidade", "Pressão"],
    dataRows := [["01/01", "1.2", "3", "4", "5", "6", "7"],
                 ["02/01", "0", "1", "2", "3", "4", "5"]] }

def histDocFull : Doc := { tables := [histTableFull] }

/-- Witness for C3 at concrete documents: the short row is dropped, and a
table with two full rows yields exactly two entries. -/
theorem history_extraction_witness :
    extract_history_data histDoc
        = (histTable.dataRows.filter fun r => decide (7 ≤ r.length)).map mkHistoryEntry
    ∧ (extract_history_data histDocFull).length = histTableFull.dataRows.length :=
  ⟨((history_extraction histDoc).1 histTable (by decide)).1,
   ((history_extraction histDocFull).1 histTableFull (by decide)).2 (by decide)⟩

/-- Claim C5 counterexample: `send_sensor_data` treats a 304 response — a
non-2xx status — as success (`raise_for_status` raises only for 4xx/5xx),
contradicting the claim that any non-2xx response yields a failure result. -/
theorem publish_non2xx_counterexample :
    is2xx 304 = false ∧ send_sensor_data (.status 304) = true := by
  decide

/-- Claim C5 (amended): when a channel's publish call raises or returns a
4xx/5xx response (the statuses `raise_for_status` treats as errors),
`send_sensor_data` catches the error and returns `False` without raising,
and the remaining channels of the cycle are still attempted with their own
results — shown here for the first (temperature) channel of the six
straight-line calls, whose failure leaves the other five entries intact. -/
theorem publish_failure_isolated (os : Outcomes)
    (h : os.temperature = .raised
        ∨ ∃ c, os.temperature = .status c ∧ raiseForStatusRaises c = true) :
    send_sensor_data os.temperature = false
    ∧ publishAll os
        = [false, send_sensor_data os.humidity, send_sensor_data os.rain,
           send_sensor_data os.wind_speed, send_sensor_data os.pressure,
           send_sensor_data os.complete]
    ∧ (publishAll os).length = 6 := by
  have h1 : send_sensor_data os.temperature = false := by
    rcases h with h | ⟨c, hc, hcr⟩
    · rw [h]
      rfl
    · rw [hc]
      simp [send_sensor_data, hcr]
  exact ⟨h1, by simp [publishAll, h1], rfl⟩

/-- Outcomes where the first channel gets a 500 and the rest succeed. -/
def failFirstOutcomes : Outcomes :=
  ⟨.status 500, .status 200, .status 200, .status 200, .status 200, .status 200⟩

/-- Witness for the amended C5 at a concrete cycle. -/
theorem publish_failure_isolated_witness :
    send_sensor_data failFirstOutcomes.temperature = false
    ∧ publishAll failFirstOutcomes
        = [false, send_sensor_data failFirstOutcomes.humidity,
           send_sensor_data failFirstOutcomes.rain,
           send_sensor_data failFirstOutcomes.wind_speed,
           send_sensor_data failFirstOutcomes.pressure,
           send_sensor_data failFirstOutcomes.complete]
    ∧ (publishAll failFirstOutcomes).length = 6 :=
  publish_failure_isolated failFirstOutcomes (Or.inr ⟨500, rfl, by decide⟩)

/-- Claim C6: when loading the station page raises (including a timeout),
`scrape_data` catches the error and returns the empty reading, and the poll
loop attempts no publish call in that cycle and still proceeds to compute
the inter-cycle wait. -/
theorem fetch_failure_contained (env : ScrapeEnv) (code : String) (os : Outcomes)
    (i e : ℚ) (h : env.loadOk = false) :
    (scrape_data env code).1 = none
    ∧ cyclePublishes env code os = []
    ∧ cycle env code os i e = ([], sleep_time i e) := by
  obtain ⟨a, l, b, pg⟩ := env
  simp only at h
  subst h
  cases a <;> simp [scrape_data, cyclePublishes, cycle]

/-- An environment whose page load times out after the driver was acquired. -/
def timeoutEnv : ScrapeEnv := ⟨true, false, true, emptyDoc⟩

/-- Successful outcomes for all six channels. -/
def okOutcomes : Outcomes :=
  ⟨.status 200, .status 200, .status 200, .status 200, .status 200, .status 200⟩

/-- Witness for C6 at a concrete timed-out cycle. -/
theorem fetch_failure_contained_witness :
    (scrape_data timeoutEnv "1000840").1 = none
    ∧ cyclePublishes timeoutEnv "1000840" okOutcomes = []
    ∧ cycle timeoutEnv "1000840" okOutcomes 3600 10 = ([], sleep_time 3600 10) :=
  fetch_failure_contained timeoutEnv "1000840" okOutcomes 3600 10 rfl

/-- Claim C7: on every exit path of `scrape_data` after the browser was
acquired — normal return, load/timeout failure, or any later exception in
the body — the `finally` block quits the browser before returning. -/
theorem browser_released (env : ScrapeEnv) (code : String)
    (h : env.acquireOk = true) : (scrape_data env code).2 = true := by
  obtain ⟨a, l, b, pg⟩ := env
  simp only at h
  subst h
  cases l <;> cases b <;> simp [scrape_data]

/-- Witness for C7 at a concrete timed-out call. -/
theorem browser_released_witness : (scrape_data timeoutEnv "1000840").2 = true :=
  browser_released timeoutEnv "1000840" rfl

/-- Claim C8: the inter-cycle wait is the configured interval minus the
elapsed time, floored at zero — 3600 and 45.2 give 3554.8, 3600 and 4000
give 0 — and is never negative. -/
theorem sleep_time_spec :
    sleep_time 3600 (452/10) = 35548/10
    ∧ sleep_time 3600 4000 = 0
    ∧ ∀ i e : ℚ, 0 ≤ sleep_time i e := by
  refine ⟨?_, ?_, fun i e => le_max_left 0 _⟩
  · unfold sleep_time
    rw [max_eq_right (by norm_num : (0 : ℚ) ≤ 3600 - 452/10)]
    norm_num
  · unfold sleep_time
    rw [max_eq_left (by norm_num : (3600 : ℚ) - 4000 ≤ 0)]

/-- The fixture page of claim C9: a temperature section whose container text
carries Atual/Máxima/Mínima values. -/
def tempFixtureDoc : Doc :=
  { textNodes := [⟨"Temperatura",
      some "Temperatura ... Atual: 23.4°C Máxima: 30.1°C Mínima: 18.0°C"⟩] }

/-- Claim C9: on the fixture page the temperature extractor returns
current 23.4, max 30.1, min 18.0. -/
theorem temperature_fixture_extraction :
    extract_temperature_data tempFixtureDoc
      = some { current := 234/10, max := 301/10, min := 18 } := by
  have h : extract_temperature_data tempFixtureDoc
      = some { current := mkRat 234 10, max := mkRat 301 10, min := mkRat 180 10 } := by
    decide
  rw [h, Rat.mkRat_eq_div, Rat.mkRat_eq_div, Rat.mkRat_eq_div]
  norm_num

lemma replaceChar_of_not_mem (src dst : Char) (l : List Char) (h : src ∉ l) :
    replaceChar src dst l = l := by
  induction l with
  | nil => rfl
  | cons a t ih =>
    have ha : ¬(a == src) = true := by
      simp only [beq_iff_eq]
      intro hEq
      exact h (hEq ▸ List.mem_cons_self a t)
    unfold replaceChar at ih ⊢
    rw [List.map_cons, if_neg ha, ih fun hm => h (List.mem_cons_of_mem a hm)]

lemma not_mem_replaceChar (src dst : Char) (l : List Char) (h : dst ≠ src) :
    src ∉ replaceChar src dst l := by
  intro hmem
  unfold replaceChar at hmem
  rw [List.mem_map] at hmem
  obtain ⟨a, _, hfa⟩ := hmem
  by_cases h2 : (a == src) = true
  · rw [if_pos h2] at hfa
    exact h hfa
  · rw [if_neg h2] at hfa
    rw [beq_iff_eq] at h2
    exact h2 hfa

lemma count_replaceChar (src dst c : Char) (l : List Char)
    (h1 : c ≠ src) (h2 : c ≠ dst) :
    (replaceChar src dst l).count c = l.count c := by
  induction l with
  | nil => rfl
  | cons a t ih =>
    unfold replaceChar at ih ⊢
    rw [List.map_cons]
    by_cases ha : (a == src) = true
    · rw [if_pos ha, List.count_cons, List.count_cons, ih]
      rw [beq_iff_eq] at ha
      have e1 : ¬(dst == c) = true := by simp [beq_iff_eq]; exact fun e => h2 e.symm
      have e2 : ¬(a == c) = true := by
        simp [beq_iff_eq, ha]
        exact fun e => h1 e.symm
      rw [if_neg e1, if_neg e2]
    · rw [if_neg ha, List.count_cons, List.count_cons, ih]

/-- Claim C10: all six mojibake substitutions of `_clean_text` share the
same source character U+FFFD, so the whole chain is the single replacement
U+FFFD → 'í': after the first replacement no U+FFFD remains and the other
five substitutions never fire, hence `_clean_text` equals the pipeline with
only the first replacement, and never changes the number of occurrences of
'á', 'ã', 'ó', 'ê' or 'â' in a string. -/
theorem mojibake_single_replacement (s : String) :
    mojibakeFix s.data = replaceChar '�' 'í' s.data
    ∧ clean_text s
        = (if s == "" then ""
           else pyStrip (String.mk (collapseWs (replaceChar '�' 'í' s.data))))
    ∧ (mojibakeFix s.data).count 'á' = s.data.count 'á'
    ∧ (mojibakeFix s.data).count 'ã' = s.data.count 'ã'
    ∧ (mojibakeFix s.data).count 'ó' = s.data.count 'ó'
    ∧ (mojibakeFix s.data).count 'ê' = s.data.count 'ê'
    ∧ (mojibakeFix s.data).count 'â' = s.data.count 'â' := by
  have h0 : '�' ∉ replaceChar '�' 'í' s.data :=
    not_mem_replaceChar _ _ _ (by decide)
  have h1 : mojibakeFix s.data = replaceChar '�' 'í' s.data := by
    unfold mojibakeFix
    rw [replaceChar_of_not_mem _ _ _ h0, replaceChar_of_not_mem _ _ _ h0,
        replaceChar_of_not_mem _ _ _ h0, replaceChar_of_not_mem _ _ _ h0,
        replaceChar_of_not_mem _ _ _ h0]
  refine ⟨h1, ?_, ?_, ?_, ?_, ?_, ?_⟩
  · unfold clean_text
    rw [h1]
  all_goals rw [h1]; exact count_replaceChar _ _ _ _ (by decide) (by decide)

end CGESP

